import Mathlib

/-!
# Verification of `pvlib/ivtools.py` single-diode parameter extraction

Shallow embedding of the two estimation pipelines of `ivtools.py`:

* `fit_sde_sandia` (path a): curve segmentation, linear/exponential-region
  regression and closed-form recovery of the five single-diode-equation
  parameters;
* `fit_sdm_desoto` (path b): technology lookup, unit conversion and the
  five-equation nonlinear residual system `pv_fct`.

Modelling conventions:

* Python floats are modelled as rationals (`ℚ`).  Rationals have no NaN and
  no infinities; `np.isnan` is modelled as the constantly-false test
  `np_isnan` (see its doc comment).
* `np.exp`, `np.log`, `np.log1p` and the LAPACK least-squares kernel driven
  by `np.linalg.lstsq`, as well as `scipy.optimize.root`, are external
  black boxes; they are passed as explicit function parameters.
* Python exceptions are modelled by the `Except PyError` monad.  Python's
  float `/` raises `ZeroDivisionError` on an exactly-zero denominator (the
  regression coefficients are Python floats, extracted with `.item()`), so
  a zero-denominator check guards each scalar division of the source.
  Divisions whose operands stay NumPy arrays/scalars (`np.exp` results) do
  not raise in Python and are modelled by total field division.
-/

/-- Python exceptions raised (or propagated) by `ivtools.py`. -/
inductive PyError where
  /-- `RuntimeError`; the spec's `ExtractionFailed` / `SolverDidNotConverge`. -/
  | runtimeError (msg : String)
  /-- `NotImplementedError`; the spec's `UnsupportedTechnology`. -/
  | notImplementedError
  /-- `ValueError`; the spec's `UnknownTechnology` (and `np.argmax` on empty). -/
  | valueError (msg : String)
  /-- `ZeroDivisionError` from Python float division by exact zero. -/
  | zeroDivisionError
  /-- `TypeError`, raised by `np.polyfit` on an empty abscissa vector. -/
  | typeError (msg : String)
  /-- `IndexError`, from indexing an empty array. -/
  | indexError
  deriving DecidableEq

/-- `np.isnan` on a modelled float.  Rationals contain no NaN, so the test
is constantly `false`; every NaN produced by the actual float pipeline
stems from an operation that the rational model maps to a total value
(notably `np.linalg.lstsq` returns exact zeros, not NaN, on an empty
system; see `np_lstsq3`). -/
def np_isnan (_ : ℚ) : Bool := false

/-- `np.searchsorted(v, x)` with the default `side='left'`: for the sorted
voltage arrays required by `fit_sde_sandia`, the binary search returns the
smallest index whose element is `≥ x` (`v.length` when there is none),
which is what the left-to-right scan `List.findIdx` computes. -/
def np_searchsorted (v : List ℚ) (x : ℚ) : ℕ :=
  v.findIdx (fun a => x ≤ a)

/-- Maximum of a list of rationals (meaningful for non-empty lists only;
`np.argmax` raises on an empty array before this would be consulted). -/
def listMax : List ℚ → ℚ
  | [] => 0
  | [x] => x
  | x :: y :: ys => max x (listMax (y :: ys))

/-- `np.argmax`: index of the first occurrence of the maximum element. -/
def np_argmax : List ℚ → ℕ
  | [] => 0
  | [_] => 0
  | x :: y :: ys => if listMax (y :: ys) ≤ x then 0 else 1 + np_argmax (y :: ys)

/-- `np.polyfit(x, y, deg=1)`, returned as `(slope, intercept)`
(`coef[0]`, `coef[1]`).  Raises `TypeError` on an empty abscissa vector.
On a full-rank design (not all abscissae equal) the least-squares line is
the unique normal-equations solution.  When every abscissa equals `c` the
design is rank deficient and LAPACK's minimum-norm least-squares solution
is `(c·ȳ, ȳ)/(c² + 1)`; no claim below depends on the values returned in
this degenerate regime, only on the sign test `slope < 0` applied to
them. -/
def np_polyfit1 (x y : List ℚ) : Except PyError (ℚ × ℚ) :=
  if x.isEmpty then .error (.typeError "expected non-empty vector for x") else
  let n : ℚ := x.length
  let sx := x.sum
  let sy := y.sum
  let sxx := (x.map (fun a => a * a)).sum
  let sxy := (List.zipWith (· * ·) x y).sum
  let d := n * sxx - sx * sx
  if d = 0 then
    let c := x.headD 0
    let ybar := sy / n
    .ok (c * ybar / (c * c + 1), ybar / (c * c + 1))
  else
    .ok ((n * sxy - sx * sy) / d, (sy * sxx - sx * sxy) / d)

/-- `np.linalg.lstsq` on a three-column design matrix.  NumPy explicitly
special-cases an empty system — `if m == 0: x[...] = 0` in
`numpy/linalg/linalg.py` — returning the zero coefficient vector; any
non-empty system is handed to the LAPACK driver, modelled here by the
black-box parameter `lapack`. -/
def np_lstsq3 (lapack : List (ℚ × ℚ × ℚ) → List ℚ → ℚ × ℚ × ℚ)
    (rows : List (ℚ × ℚ × ℚ)) (rhs : List ℚ) : ℚ × ℚ × ℚ :=
  if rows.isEmpty then (0, 0, 0) else lapack rows rhs

/-- `np.expm1`: its contract is `expm1 x = exp x - 1`. -/
def np_expm1 (exp : ℚ → ℚ) (x : ℚ) : ℚ := exp x - 1

/-- `_find_mp(voltage, current)`: the sample pair at `np.argmax` of the
elementwise product.  `np.argmax` raises `ValueError` on an empty array,
modelled as `none`. -/
def _find_mp (voltage current : List ℚ) : Option (ℚ × ℚ) :=
  let p := List.zipWith (· * ·) voltage current
  if p.isEmpty then none
  else
    let idx := np_argmax p
    some (voltage.getD idx 0, current.getD idx 0)

/-- `_calc_I0(IL, I, V, Gp, Rs, nNsVth)`. -/
def _calc_I0 (exp : ℚ → ℚ) (IL I V Gp Rs nNsVth : ℚ) : ℚ :=
  (IL - I - Gp * V - Gp * Rs * I) / exp ((V + Rs * I) / nNsVth)

/-- Message of the `RuntimeError` raised by `_find_beta0_beta1` when no
window produces a negative slope (both coefficients are still NaN when the
`.format` call renders them). -/
def beta01FailMsg : String := "Parameter extraction failed: beta0=nan, beta1=nan"

/-- The `for idx in range(first_idx, len(v))` loop of `_find_beta0_beta1`,
recursing on the number `rem` of indices left to try.  At index `idx` it
fits `np.polyfit(v[:idx], i[:idx], deg=1)` and accepts the first fit with
negative slope, returning `(intercept, -slope)`; a `TypeError` from the
fit (empty window) propagates; exhaustion raises the `RuntimeError`. -/
def beta01_loop (v i : List ℚ) : ℕ → ℕ → Except PyError (ℚ × ℚ)
  | _, 0 => .error (.runtimeError beta01FailMsg)
  | idx, rem + 1 =>
    match np_polyfit1 (v.take idx) (i.take idx) with
    | .error e => .error e
    | .ok (slope, intercept) =>
      if slope < 0 then .ok (intercept, -slope)
      else beta01_loop v i (idx + 1) rem

/-- `_find_beta0_beta1(v, i, vlim, v_oc)`. -/
def _find_beta0_beta1 (v i : List ℚ) (vlim v_oc : ℚ) : Except PyError (ℚ × ℚ) :=
  let first := np_searchsorted v (vlim * v_oc)
  beta01_loop v i first (v.length - first)

/-- End indices of the prefix windows `v[:idx]` actually fitted by the
`_find_beta0_beta1` loop, in examination order: the loop stops examining
windows at the first accepted fit (or at a propagated fit error). -/
def beta01_windows (v i : List ℚ) : ℕ → ℕ → List ℕ
  | _, 0 => []
  | idx, rem + 1 =>
    idx ::
      match np_polyfit1 (v.take idx) (i.take idx) with
      | .error _ => []
      | .ok (slope, _) =>
        if slope < 0 then [] else beta01_windows v i (idx + 1) rem

/-- The fitted-window end indices for a full `_find_beta0_beta1` call. -/
def fittedWindows (v i : List ℚ) (vlim v_oc : ℚ) : List ℕ :=
  beta01_windows v i (np_searchsorted v (vlim * v_oc))
    (v.length - np_searchsorted v (vlim * v_oc))

/-- The exponential-region sample selection of `_find_beta3_beta4`:
triples `((V, I), y)` with `y = beta0 - beta1*V - I` restricted to the
mask `y > ilim * i_sc`. -/
def expRegionSelect (voltage current : List ℚ) (beta0 beta1 ilim i_sc : ℚ) :
    List ((ℚ × ℚ) × ℚ) :=
  (List.zip (List.zip voltage current)
      (List.zipWith (fun v i => beta0 - beta1 * v - i) voltage current)).filter
    (fun p => ilim * i_sc < p.2)

/-- `_find_beta3_beta4(voltage, current, beta0, beta1, ilim, i_sc)`:
regress `log y` onto `[1, V, I]` over the selected samples and return
`(coef[1], coef[2])`.  The `np.isnan` guard is retained verbatim; in the
rational model it never fires (see `np_isnan`). -/
def _find_beta3_beta4 (log : ℚ → ℚ)
    (lapack : List (ℚ × ℚ × ℚ) → List ℚ → ℚ × ℚ × ℚ)
    (voltage current : List ℚ) (beta0 beta1 ilim i_sc : ℚ) :
    Except PyError (ℚ × ℚ) :=
  let sel := expRegionSelect voltage current beta0 beta1 ilim i_sc
  let rows : List (ℚ × ℚ × ℚ) := sel.map (fun p => (1, p.1.1, p.1.2))
  let rhs : List ℚ := sel.map (fun p => log p.2)
  let coef := np_lstsq3 lapack rows rhs
  let beta3 := coef.2.1
  let beta4 := coef.2.2
  if np_isnan beta3 = true ∨ np_isnan beta4 = true then
    .error (.runtimeError "Parameter extraction failed: beta3=nan, beta4=nan")
  else
    .ok (beta3, beta4)

/-- Message of the `RuntimeError` raised when neither saturation-current
estimate is usable. -/
def i0FailMsg : String := "Parameter extraction failed: I0 is undetermined."

/-- `_calculate_sde_parameters(beta0, beta1, beta3, beta4, v_mp, i_mp,
v_oc)`.  The coefficients are Python floats, so each of the scalar
divisions `1.0/beta3`, `beta1/(1.0 - Rs*beta1)` and `1.0/Gp` raises
`ZeroDivisionError` on an exactly-zero denominator. -/
def _calculate_sde_parameters (exp : ℚ → ℚ)
    (beta0 beta1 beta3 beta4 v_mp i_mp v_oc : ℚ) :
    Except PyError (ℚ × ℚ × ℚ × ℚ × ℚ) :=
  if beta3 = 0 then .error .zeroDivisionError else
  let nNsVth := 1 / beta3
  let Rs := beta4 / beta3
  if 1 - Rs * beta1 = 0 then .error .zeroDivisionError else
  let Gp := beta1 / (1 - Rs * beta1)
  if Gp = 0 then .error .zeroDivisionError else
  let Rsh := 1 / Gp
  let IL := (1 + Gp * Rs) * beta0
  let I0_vmp := _calc_I0 exp IL i_mp v_mp Gp Rs nNsVth
  let I0_voc := _calc_I0 exp IL 0 v_oc Gp Rs nNsVth
  if np_isnan I0_vmp = true ∨ np_isnan I0_voc = true ∨ (I0_vmp ≤ 0 ∧ I0_voc ≤ 0) then
    .error (.runtimeError i0FailMsg)
  else if 0 < I0_vmp ∧ 0 < I0_voc then
    .ok (IL, 1 / 2 * (I0_vmp + I0_voc), Rsh, Rs, nNsVth)
  else if 0 < I0_vmp then
    .ok (IL, I0_vmp, Rsh, Rs, nNsVth)
  else
    .ok (IL, I0_voc, Rsh, Rs, nNsVth)

/-- `fit_sde_sandia(voltage, current, v_oc, i_sc, v_mp_i_mp, vlim, ilim)`.
Optional scalars default from the curve (`voltage[-1]`, `current[0]`,
`_find_mp`), each raising on an empty array. -/
def fit_sde_sandia (exp log : ℚ → ℚ)
    (lapack : List (ℚ × ℚ × ℚ) → List ℚ → ℚ × ℚ × ℚ)
    (voltage current : List ℚ) (v_oc_in i_sc_in : Option ℚ)
    (v_mp_i_mp : Option (ℚ × ℚ)) (vlim ilim : ℚ) :
    Except PyError (ℚ × ℚ × ℚ × ℚ × ℚ) :=
  match (match v_oc_in with
         | some x => Except.ok x
         | none => match voltage.getLast? with
                   | some x => Except.ok x
                   | none => Except.error PyError.indexError) with
  | .error e => .error e
  | .ok v_oc =>
    match (match i_sc_in with
           | some x => Except.ok x
           | none => match current.head? with
                     | some x => Except.ok x
                     | none => Except.error PyError.indexError) with
    | .error e => .error e
    | .ok i_sc =>
      match (match v_mp_i_mp with
             | some p => Except.ok p
             | none => match _find_mp voltage current with
                       | some p => Except.ok p
                       | none => Except.error
                           (PyError.valueError
                             "attempt to get argmax of an empty sequence")) with
      | .error e => .error e
      | .ok (v_mp, i_mp) =>
        match _find_beta0_beta1 voltage current vlim v_oc with
        | .error e => .error e
        | .ok (beta0, beta1) =>
          match _find_beta3_beta4 log lapack voltage current beta0 beta1 ilim i_sc with
          | .error e => .error e
          | .ok (beta3, beta4) =>
            _calculate_sde_parameters exp beta0 beta1 beta3 beta4 v_mp i_mp v_oc

/-- `scipy.constants.Boltzmann` (exact SI value 1.380649e-23 J/K). -/
def kBoltzmann : ℚ := 1380649 / 10 ^ 29

/-- `scipy.constants.elementary_charge` (exact SI value 1.602176634e-19 C). -/
def qElementary : ℚ := 1602176634 / 10 ^ 28

/-- The silicon-variant cell types accepted by `fit_sdm_desoto`. -/
def siliconCelltypes : List String :=
  ["monosi", "polysi", "multisi", "mono-c-si", "multi-c-si"]

/-- The thin-film family recognized but rejected by `fit_sdm_desoto`. -/
def thinFilmCelltypes : List String :=
  ["cis", "cigs", "cdte", "amorphous", "thin film"]

/-- Python's `str.lower()`: each character mapped to its lower-case form
(the celltype strings involved are ASCII, where this is exactly
per-character lower-casing). -/
def py_lower (s : String) : String := ⟨s.data.map Char.toLower⟩

/-- The technology lookup of `fit_sdm_desoto`: lower-case the cell type,
then return `(dEgdT, EgRef)` for silicon variants, raise
`NotImplementedError` for the thin-film family and `ValueError` for
anything else. -/
def desoto_technology (celltype : String) : Except PyError (ℚ × ℚ) :=
  if py_lower celltype ∈ siliconCelltypes then
    .ok (-2677 / 10 ^ 7, 1796 / 10 ^ 22)
  else if py_lower celltype ∈ thinFilmCelltypes then
    .error .notImplementedError
  else
    .error (.valueError "Unknown cell type.")

/-- `pv_fct(params, specs)`, the residual system of `fit_sdm_desoto`,
with the closed-over constants `Tref`, `EgRef`, `dEgdT` and the Boltzmann
constant `k` made explicit parameters. -/
def pv_fct (exp : ℚ → ℚ) (k Tref EgRef dEgdT : ℚ)
    (params : ℚ × ℚ × ℚ × ℚ × ℚ) (specs : ℚ × ℚ × ℚ × ℚ × ℚ × ℚ) : List ℚ :=
  let (Isc, Voc, Imp, Vmp, betaoc, alphasc) := specs
  let (IL, Io, a, Rsh, Rs) := params
  let y0 := Isc - IL + Io * np_expm1 exp (Isc * Rs / a) + Isc * Rs / Rsh
  let y1 := -IL + Io * np_expm1 exp (Voc / a) + Voc / Rsh
  let y2 := Imp - IL + Io * exp ((Vmp + Imp * Rs) / a) + (Vmp + Imp * Rs) / Rsh
  let y3 := Imp - Vmp * ((Io / a) * exp ((Vmp + Imp * Rs) / a) + 1 / Rsh) /
      (1 + (Io * Rs / a) * exp ((Vmp + Imp * Rs) / a) + Rs / Rsh)
  let T2 := Tref + 2
  let Voc2 := (T2 - Tref) * betaoc + Voc
  let a2 := a * T2 / Tref
  let IL2 := IL + alphasc * (T2 - Tref)
  let Eg2 := EgRef * (1 + dEgdT * (T2 - Tref))
  let Io2 := Io * (T2 / Tref) ^ 3 * exp (1 / k * (EgRef / Tref - Eg2 / T2))
  let y4 := -IL2 + Io2 * np_expm1 exp (Voc2 / a2) + Voc2 / Rsh
  [y0, y1, y2, y3, y4]

/-- The five residual equations exactly as the specification words them
(§4.6 of the spec / claim C5), to be compared with `pv_fct`. -/
def pv_fct_spec (exp : ℚ → ℚ) (k Tref EgRef dEgdT : ℚ)
    (params : ℚ × ℚ × ℚ × ℚ × ℚ) (specs : ℚ × ℚ × ℚ × ℚ × ℚ × ℚ) : List ℚ :=
  let (Isc, Voc, Imp, Vmp, beta_voc, alpha_sc) := specs
  let (IL, I0, a, Rsh, Rs) := params
  let shortCircuit := Isc - IL + I0 * (exp (Isc * Rs / a) - 1) + Isc * Rs / Rsh
  let openCircuitTref := -IL + I0 * (exp (Voc / a) - 1) + Voc / Rsh
  let maxPowerCurrent :=
    Imp - IL + I0 * exp ((Vmp + Imp * Rs) / a) + (Vmp + Imp * Rs) / Rsh
  let maxPowerStationarity :=
    Imp - Vmp * ((I0 / a) * exp ((Vmp + Imp * Rs) / a) + 1 / Rsh) /
      (1 + (I0 * Rs / a) * exp ((Vmp + Imp * Rs) / a) + Rs / Rsh)
  let T2 := Tref + 2
  let Voc2 := Voc + 2 * beta_voc
  let a2 := a * T2 / Tref
  let IL2 := IL + 2 * alpha_sc
  let Eg2 := EgRef * (1 + 2 * dEgdT)
  let I0_2 := I0 * (T2 / Tref) ^ 3 * exp (1 / k * (EgRef / Tref - Eg2 / T2))
  let openCircuitT2 := -IL2 + I0_2 * (exp (Voc2 / a2) - 1) + Voc2 / Rsh
  [shortCircuit, openCircuitTref, maxPowerCurrent, maxPowerStationarity,
    openCircuitT2]

/-- `fit_sdm_desoto(celltype, v_mp, i_mp, v_oc, i_sc, alpha_sc, beta_voc,
cells_in_series, temp_ref, irrad_ref)`.  `scipy.optimize.root` is a black
box consuming the residual closure and the initial-guess vector and
reporting success (`some` solution) or failure (`none`).  The result
dictionary is modelled as the tuple `(I_L_ref, I_o_ref, a_ref, R_sh_ref,
R_s, alpha_sc, EgRef, dEgdT, irrad_ref, temp_ref)`. -/
def fit_sdm_desoto
    (root : ((ℚ × ℚ × ℚ × ℚ × ℚ) → List ℚ) → (ℚ × ℚ × ℚ × ℚ × ℚ) →
      Option (ℚ × ℚ × ℚ × ℚ × ℚ))
    (exp log1p : ℚ → ℚ) (celltype : String)
    (v_mp i_mp v_oc i_sc alpha_sc beta_voc cells_in_series temp_ref irrad_ref : ℚ) :
    Except PyError (ℚ × ℚ × ℚ × ℚ × ℚ × ℚ × ℚ × ℚ × ℚ × ℚ) :=
  let k := kBoltzmann
  let q := qElementary
  let Tref := temp_ref + 27315 / 100
  match desoto_technology celltype with
  | .error e => .error e
  | .ok (dEgdT, EgRef) =>
    let alpha_sc' := alpha_sc * i_sc / 100
    let beta_voc' := beta_voc * v_oc / 100
    let Rsh_i : ℚ := 100
    let a_i := 3 / 2 * k * Tref * cells_in_series / q
    let IL_i := i_sc
    let Io_i := i_sc * exp (-v_oc / a_i)
    let Rs_i := (a_i * log1p ((IL_i - i_mp) / Io_i) - v_mp) / i_mp
    match root
        (fun p => pv_fct exp k Tref EgRef dEgdT p
          (i_sc, v_oc, i_mp, v_mp, beta_voc', alpha_sc'))
        (IL_i, Io_i, a_i, Rsh_i, Rs_i) with
    | none => .error (.runtimeError "Parameter estimation failed")
    | some (IL, Io, a, Rsh, Rs) =>
      .ok (IL, Io, a, Rsh, Rs, alpha_sc', EgRef, dEgdT, irrad_ref, temp_ref)

/-! ## Helper lemmas -/

theorem np_searchsorted_le_length :
    ∀ (v : List ℚ) (x : ℚ), np_searchsorted v x ≤ v.length
  | [], x => by simp [np_searchsorted]
  | a :: t, x => by
    simp only [np_searchsorted, List.findIdx_cons, List.length_cons]
    by_cases hx : x ≤ a
    · simp [hx]
    · have ih := np_searchsorted_le_length t x
      simp only [np_searchsorted] at ih
      simp only [hx, decide_False, cond_false]
      omega

theorem np_searchsorted_lt :
    ∀ (v : List ℚ) (x : ℚ) (k : ℕ), k < np_searchsorted v x → v.getD k 0 < x
  | [], x, k => by simp [np_searchsorted]
  | a :: t, x, k => by
    simp only [np_searchsorted, List.findIdx_cons]
    by_cases hx : x ≤ a
    · simp [hx]
    · simp only [hx, decide_False, cond_false]
      cases k with
      | zero => intro _; simpa using lt_of_not_le hx
      | succ k =>
        intro hk
        have ih := np_searchsorted_lt t x k
        simp only [np_searchsorted] at ih
        simpa using ih (by omega)

theorem np_searchsorted_ge :
    ∀ (v : List ℚ) (x : ℚ), np_searchsorted v x < v.length →
      x ≤ v.getD (np_searchsorted v x) 0
  | [], x => by simp [np_searchsorted]
  | a :: t, x => by
    simp only [np_searchsorted, List.findIdx_cons, List.length_cons]
    by_cases hx : x ≤ a
    · simp [hx]
    · simp only [hx, decide_False, cond_false, List.getD_cons_succ]
      intro h
      have ih := np_searchsorted_ge t x
      simp only [np_searchsorted] at ih
      exact ih (by omega)

theorem listMax_ge :
    ∀ (l : List ℚ) (k : ℕ), k < l.length → l.getD k 0 ≤ listMax l
  | [], k => by simp
  | [x], 0 => by simp [listMax]
  | [x], k + 1 => by simp
  | x :: y :: ys, 0 => by simp [listMax]
  | x :: y :: ys, k + 1 => by
    intro h
    have ih := listMax_ge (y :: ys) k (by simpa using h)
    simp only [List.getD_cons_succ, listMax]
    exact le_trans ih (le_max_right _ _)

theorem np_argmax_lt_length : ∀ (l : List ℚ), l ≠ [] → np_argmax l < l.length
  | [], h => absurd rfl h
  | [x], _ => by simp [np_argmax]
  | x :: y :: ys, _ => by
    by_cases h : listMax (y :: ys) ≤ x
    · simp [np_argmax, h]
    · have := np_argmax_lt_length (y :: ys) (by simp)
      simp only [np_argmax, if_neg h, List.length_cons] at this ⊢
      omega

theorem getD_np_argmax : ∀ (l : List ℚ), l ≠ [] → l.getD (np_argmax l) 0 = listMax l
  | [], h => absurd rfl h
  | [x], _ => by simp [np_argmax, listMax]
  | x :: y :: ys, _ => by
    by_cases h : listMax (y :: ys) ≤ x
    · simp [np_argmax, h, listMax, max_eq_left h]
    · have ih := getD_np_argmax (y :: ys) (by simp)
      push_neg at h
      rw [np_argmax, if_neg (not_le.mpr h), Nat.add_comm 1, List.getD_cons_succ,
        listMax, max_eq_right (le_of_lt h)]
      exact ih

theorem np_argmax_first :
    ∀ (l : List ℚ) (k : ℕ), k < np_argmax l → l.getD k 0 < l.getD (np_argmax l) 0
  | [], k => by simp [np_argmax]
  | [x], k => by simp [np_argmax]
  | x :: y :: ys, k => by
    by_cases h : listMax (y :: ys) ≤ x
    · simp [np_argmax, h]
    · push_neg at h
      intro hk
      simp only [np_argmax, if_neg (not_le.mpr h)] at hk ⊢
      rw [Nat.add_comm 1, List.getD_cons_succ]
      cases k with
      | zero =>
        rw [List.getD_cons_zero, getD_np_argmax (y :: ys) (by simp)]
        exact h
      | succ k =>
        rw [List.getD_cons_succ]
        exact np_argmax_first (y :: ys) k (by omega)

theorem getD_zipWith_mul :
    ∀ (v i : List ℚ) (k : ℕ), k < v.length → k < i.length →
      (List.zipWith (· * ·) v i).getD k 0 = v.getD k 0 * i.getD k 0
  | [], _, k => by simp
  | _ :: _, [], k => by simp
  | a :: v, b :: i, 0 => by simp
  | a :: v, b :: i, k + 1 => by
    intro h1 h2
    simp only [List.length_cons] at h1 h2
    simp only [List.zipWith_cons_cons, List.getD_cons_succ]
    exact getD_zipWith_mul v i k (by omega) (by omega)

theorem np_polyfit1_error_shape (x y : List ℚ) (e : PyError)
    (h : np_polyfit1 x y = .error e) : ∃ m, e = .typeError m := by
  simp only [np_polyfit1] at h
  split at h
  · exact ⟨_, ((Except.error.injEq _ _).mp h).symm⟩
  · split at h <;> simp at h

theorem beta01_loop_ok :
    ∀ (v i : List ℚ) (rem idx : ℕ) (b0 b1 : ℚ),
      beta01_loop v i idx rem = .ok (b0, b1) →
      ∃ j, idx ≤ j ∧ j < idx + rem ∧
        (∃ s t, np_polyfit1 (v.take j) (i.take j) = .ok (s, t) ∧ s < 0 ∧
          b0 = t ∧ b1 = -s) ∧
        ∀ m, idx ≤ m → m < j →
          ∃ s t, np_polyfit1 (v.take m) (i.take m) = .ok (s, t) ∧ 0 ≤ s := by
  intro v i rem
  induction rem with
  | zero => intro idx b0 b1 h; simp [beta01_loop] at h
  | succ rem ih =>
    intro idx b0 b1 h
    rw [beta01_loop] at h
    split at h
    · exact absurd h (by simp)
    · rename_i s t hp
      split at h
      · rename_i hs
        obtain ⟨h1, h2⟩ := Prod.mk.injEq .. ▸ (Except.ok.injEq _ _).mp h
        exact ⟨idx, le_refl _, by omega, ⟨s, t, hp, hs, h1.symm, h2.symm⟩,
          fun m hm1 hm2 => absurd hm2 (by omega)⟩
      · rename_i hs
        obtain ⟨j, hj1, hj2, hacc, hmono⟩ := ih (idx + 1) b0 b1 h
        refine ⟨j, by omega, by omega, hacc, ?_⟩
        intro m hm1 hm2
        rcases eq_or_lt_of_le hm1 with rfl | hlt
        · exact ⟨s, t, hp, not_lt.mp hs⟩
        · exact hmono m (by omega) hm2

theorem beta01_loop_fail :
    ∀ (v i : List ℚ) (rem idx : ℕ),
      (∀ j, idx ≤ j → j < idx + rem →
        ∃ s t, np_polyfit1 (v.take j) (i.take j) = .ok (s, t) ∧ 0 ≤ s) →
      beta01_loop v i idx rem = .error (.runtimeError beta01FailMsg) := by
  intro v i rem
  induction rem with
  | zero => intro idx _; rfl
  | succ rem ih =>
    intro idx H
    obtain ⟨s, t, hp, hs⟩ := H idx (le_refl _) (by omega)
    rw [beta01_loop, hp]
    simp only [if_neg (not_lt.mpr hs)]
    exact ih (idx + 1) (fun j h1 h2 => H j (by omega) (by omega))

theorem beta01_windows_mem :
    ∀ (v i : List ℚ) (rem idx j : ℕ),
      j ∈ beta01_windows v i idx rem → idx ≤ j ∧ j < idx + rem := by
  intro v i rem
  induction rem with
  | zero => intro idx j h; simp [beta01_windows] at h
  | succ rem ih =>
    intro idx j h
    rw [beta01_windows] at h
    rcases List.mem_cons.mp h with rfl | h
    · omega
    · split at h
      · simp at h
      · split at h
        · simp at h
        · have := ih (idx + 1) j h
          omega

theorem beta01_windows_last_of_ok :
    ∀ (v i : List ℚ) (rem idx : ℕ) (b0 b1 : ℚ),
      beta01_loop v i idx rem = .ok (b0, b1) →
      ∃ j s t, (beta01_windows v i idx rem).getLast? = some j ∧
        np_polyfit1 (v.take j) (i.take j) = .ok (s, t) ∧ s < 0 ∧
        b0 = t ∧ b1 = -s := by
  intro v i rem
  induction rem with
  | zero => intro idx b0 b1 h; simp [beta01_loop] at h
  | succ rem ih =>
    intro idx b0 b1 h
    rw [beta01_loop] at h
    rw [beta01_windows]
    split at h
    · exact absurd h (by simp)
    · rename_i s t hp
      split at h
      · rename_i hs
        obtain ⟨h1, h2⟩ := Prod.mk.injEq .. ▸ (Except.ok.injEq _ _).mp h
        rw [if_pos hs]
        exact ⟨idx, s, t, rfl, hp, hs, h1.symm, h2.symm⟩
      · rename_i hs
        rw [if_neg hs]
        obtain ⟨j, s', t', hlast, hfit, hneg, hb0, hb1⟩ := ih (idx + 1) b0 b1 h
        cases hw : beta01_windows v i (idx + 1) rem with
        | nil => rw [hw] at hlast; simp at hlast
        | cons w ws =>
          rw [hw] at hlast
          exact ⟨j, s', t', by rw [List.getLast?_cons_cons]; exact hlast,
            hfit, hneg, hb0, hb1⟩

theorem beta01_windows_cover_of_fail :
    ∀ (v i : List ℚ) (rem idx : ℕ),
      beta01_loop v i idx rem = .error (.runtimeError beta01FailMsg) →
      ∀ j, idx ≤ j → j < idx + rem → j ∈ beta01_windows v i idx rem := by
  intro v i rem
  induction rem with
  | zero => intro idx _ j _ h2; omega
  | succ rem ih =>
    intro idx h j hj1 hj2
    rw [beta01_loop] at h
    rw [beta01_windows]
    split at h
    · rename_i e hp
      obtain ⟨m, rfl⟩ := np_polyfit1_error_shape _ _ e hp
      exact absurd ((Except.error.injEq _ _).mp h) (by simp)
    · rename_i s t hp
      split at h
      · exact absurd h (by simp)
      · rename_i hs
        rw [if_neg hs]
        rcases eq_or_lt_of_le hj1 with rfl | hlt
        · exact List.mem_cons_self _ _
        · exact List.mem_cons_of_mem _ (ih (idx + 1) h j (by omega) (by omega))

/-! ## Claim theorems -/

/-- C5: the DeSoto residual function `pv_fct` evaluated at unknowns
`[IL, I0, a, Rsh, Rs]` with specs `(Isc, Voc, Imp, Vmp, beta_voc,
alpha_sc)` equals exactly the five equations of the spec: short-circuit,
open-circuit at `Tref`, max-power current, the specific stationarity form,
and the open-circuit equation at `T2 = Tref + 2` with the spec's
projections `Voc2 = Voc + 2·beta_voc`, `a2 = a·T2/Tref`,
`IL2 = IL + 2·alpha_sc`, `Eg2 = EgRef·(1 + 2·dEgdT)` and
`I0_2 = I0·(T2/Tref)³·exp((1/k)·(EgRef/Tref − Eg2/T2))`. -/
theorem c5_desoto_residuals_match_spec (exp : ℚ → ℚ) (k Tref EgRef dEgdT : ℚ)
    (params : ℚ × ℚ × ℚ × ℚ × ℚ) (specs : ℚ × ℚ × ℚ × ℚ × ℚ × ℚ) :
    pv_fct exp k Tref EgRef dEgdT params specs =
      pv_fct_spec exp k Tref EgRef dEgdT params specs := by
  obtain ⟨IL, Io, a, Rsh, Rs⟩ := params
  obtain ⟨Isc, Voc, Imp, Vmp, betaoc, alphasc⟩ := specs
  simp only [pv_fct, pv_fct_spec, np_expm1]
  have h1 : (Tref + 2 - Tref) * betaoc + Voc = Voc + 2 * betaoc := by ring
  have h2 : IL + alphasc * (Tref + 2 - Tref) = IL + 2 * alphasc := by ring
  have h3 : EgRef * (1 + dEgdT * (Tref + 2 - Tref)) = EgRef * (1 + 2 * dEgdT) := by
    ring
  rw [h1, h2, h3]

/-- C7: the DeSoto technology lookup is case-insensitive; silicon variants
yield `dEgdT = -2.677e-4` and `EgRef = 1.796e-19`, the thin-film family
(e.g. "cigs") makes `fit_sdm_desoto` raise `NotImplementedError`
(`UnsupportedTechnology`), and any other string (e.g. "foobar") makes it
raise `ValueError` (`UnknownTechnology`). -/
theorem c7_technology_lookup (s t u : String)
    (root : ((ℚ × ℚ × ℚ × ℚ × ℚ) → List ℚ) → (ℚ × ℚ × ℚ × ℚ × ℚ) →
      Option (ℚ × ℚ × ℚ × ℚ × ℚ))
    (exp log1p : ℚ → ℚ)
    (v_mp i_mp v_oc i_sc alpha_sc beta_voc ns tref iref : ℚ)
    (hs : py_lower s ∈ siliconCelltypes)
    (ht : py_lower t ∈ thinFilmCelltypes)
    (hu1 : py_lower u ∉ siliconCelltypes)
    (hu2 : py_lower u ∉ thinFilmCelltypes) :
    desoto_technology s = .ok (-2677 / 10 ^ 7, 1796 / 10 ^ 22) ∧
    fit_sdm_desoto root exp log1p t
      v_mp i_mp v_oc i_sc alpha_sc beta_voc ns tref iref =
      .error .notImplementedError ∧
    fit_sdm_desoto root exp log1p u
      v_mp i_mp v_oc i_sc alpha_sc beta_voc ns tref iref =
      .error (.valueError "Unknown cell type.") := by
  refine ⟨?_, ?_, ?_⟩
  · rw [desoto_technology, if_pos hs]
  · rw [fit_sdm_desoto, desoto_technology, if_neg, if_pos ht]
    intro hmem
    have : py_lower t ∈ thinFilmCelltypes := ht
    revert hmem
    simp only [siliconCelltypes, thinFilmCelltypes, List.mem_cons,
      List.not_mem_nil, or_false] at this ⊢
    rcases this with h | h | h | h | h <;> rw [h] <;> simp
  · rw [fit_sdm_desoto, desoto_technology, if_neg hu1, if_neg hu2]

/-- C2: whenever the parameter recoverer `_calculate_sde_parameters`
returns, with `beta3 ≠ 0` and `1 - (beta4/beta3)·beta1 ≠ 0`, the returned
components satisfy exactly `nNsVth = 1/beta3`, `Rs = beta4/beta3`,
`Rsh = 1/Gp` and `IL = (1 + Gp·Rs)·beta0` with
`Gp = beta1/(1 - Rs·beta1)`. -/
theorem c2_sde_parameter_formulas (exp : ℚ → ℚ)
    (beta0 beta1 beta3 beta4 v_mp i_mp v_oc IL I0 Rsh Rs nNsVth : ℚ)
    (hb3 : beta3 ≠ 0) (hden : 1 - beta4 / beta3 * beta1 ≠ 0)
    (h : _calculate_sde_parameters exp beta0 beta1 beta3 beta4 v_mp i_mp v_oc =
      .ok (IL, I0, Rsh, Rs, nNsVth)) :
    nNsVth = 1 / beta3 ∧ Rs = beta4 / beta3 ∧
    Rsh = 1 / (beta1 / (1 - (beta4 / beta3) * beta1)) ∧
    IL = (1 + beta1 / (1 - (beta4 / beta3) * beta1) * (beta4 / beta3)) * beta0 := by
  rw [_calculate_sde_parameters, if_neg hb3] at h
  rw [if_neg hden] at h
  simp only [np_isnan, Bool.false_eq_true, false_or] at h
  split at h
  · exact absurd h (by simp)
  · split at h
    · exact absurd h (by simp)
    · split at h
      · simp only [Except.ok.injEq, Prod.mk.injEq] at h
        obtain ⟨h1, _, h3, h4, h5⟩ := h
        exact ⟨h5.symm, h4.symm, h3.symm, h1.symm⟩
      · split at h
        · simp only [Except.ok.injEq, Prod.mk.injEq] at h
          obtain ⟨h1, _, h3, h4, h5⟩ := h
          exact ⟨h5.symm, h4.symm, h3.symm, h1.symm⟩
        · simp only [Except.ok.injEq, Prod.mk.injEq] at h
          obtain ⟨h1, _, h3, h4, h5⟩ := h
          exact ⟨h5.symm, h4.symm, h3.symm, h1.symm⟩

/-- C3: with the recovered intermediates in scope, the saturation-current
reconciliation of `_calculate_sde_parameters` computes the two estimates
through the identity `I0 = (IL − I − Gp·V − Gp·Rs·I)/exp((V + Rs·I)/nNsVth)`
at the max-power point `(v_mp, i_mp)` and at open circuit `(v_oc, 0)`,
returns their arithmetic mean when both are positive, the positive one when
exactly one is positive, and raises the `RuntimeError` ("I0 is
undetermined.") when neither is positive (a NaN estimate cannot arise in
the rational model; the `np.isnan` guard shares the failure branch). -/
theorem c3_I0_reconciliation (exp : ℚ → ℚ)
    (beta0 beta1 beta3 beta4 v_mp i_mp v_oc nNsVth Rs Gp Rsh IL : ℚ)
    (hb3 : beta3 ≠ 0) (hnN : nNsVth = 1 / beta3) (hRs : Rs = beta4 / beta3)
    (hden : 1 - Rs * beta1 ≠ 0) (hGp : Gp = beta1 / (1 - Rs * beta1))
    (hGp0 : Gp ≠ 0) (hRsh : Rsh = 1 / Gp) (hIL : IL = (1 + Gp * Rs) * beta0) :
    _calc_I0 exp IL i_mp v_mp Gp Rs nNsVth =
      (IL - i_mp - Gp * v_mp - Gp * Rs * i_mp) /
        exp ((v_mp + Rs * i_mp) / nNsVth) ∧
    _calc_I0 exp IL 0 v_oc Gp Rs nNsVth =
      (IL - 0 - Gp * v_oc - Gp * Rs * 0) / exp ((v_oc + Rs * 0) / nNsVth) ∧
    _calculate_sde_parameters exp beta0 beta1 beta3 beta4 v_mp i_mp v_oc =
      (if 0 < _calc_I0 exp IL i_mp v_mp Gp Rs nNsVth ∧
          0 < _calc_I0 exp IL 0 v_oc Gp Rs nNsVth then
        .ok (IL, (_calc_I0 exp IL i_mp v_mp Gp Rs nNsVth +
          _calc_I0 exp IL 0 v_oc Gp Rs nNsVth) / 2, Rsh, Rs, nNsVth)
      else if 0 < _calc_I0 exp IL i_mp v_mp Gp Rs nNsVth then
        .ok (IL, _calc_I0 exp IL i_mp v_mp Gp Rs nNsVth, Rsh, Rs, nNsVth)
      else if 0 < _calc_I0 exp IL 0 v_oc Gp Rs nNsVth then
        .ok (IL, _calc_I0 exp IL 0 v_oc Gp Rs nNsVth, Rsh, Rs, nNsVth)
      else .error (.runtimeError i0FailMsg)) := by
  subst hnN hRs hGp hRsh hIL
  refine ⟨rfl, rfl, ?_⟩
  rw [_calculate_sde_parameters, if_neg hb3]
  rw [if_neg hden, if_neg hGp0]
  simp only [np_isnan, Bool.false_eq_true, false_or]
  by_cases h1 : 0 < _calc_I0 exp
      ((1 + beta1 / (1 - beta4 / beta3 * beta1) * (beta4 / beta3)) * beta0)
      i_mp v_mp (beta1 / (1 - beta4 / beta3 * beta1)) (beta4 / beta3)
      (1 / beta3) <;>
    by_cases h2 : 0 < _calc_I0 exp
      ((1 + beta1 / (1 - beta4 / beta3 * beta1) * (beta4 / beta3)) * beta0)
      0 v_oc (beta1 / (1 - beta4 / beta3 * beta1)) (beta4 / beta3)
      (1 / beta3)
  · rw [if_neg (fun hc => absurd hc.1 (not_le.mpr h1)), if_pos ⟨h1, h2⟩,
      if_pos ⟨h1, h2⟩]
    simp only [Except.ok.injEq, Prod.mk.injEq, true_and, and_true]
    ring
  · rw [if_neg (fun hc => absurd hc.1 (not_le.mpr h1)),
      if_neg (fun hc => absurd hc.2 h2), if_pos h1,
      if_neg (fun hc => absurd hc.2 h2), if_pos h1]
  · rw [if_neg (fun hc => absurd hc.2 (not_le.mpr h2)),
      if_neg (fun hc => absurd hc.1 h1), if_neg h1,
      if_neg (fun hc => absurd hc.1 h1), if_neg h1, if_pos h2]
  · rw [if_pos ⟨not_lt.mp h1, not_lt.mp h2⟩,
      if_neg (fun hc => absurd hc.1 h1), if_neg h1, if_neg h2]

theorem calculate_sde_parameters_I0_pos (exp : ℚ → ℚ)
    (beta0 beta1 beta3 beta4 v_mp i_mp v_oc IL I0 Rsh Rs nNsVth : ℚ)
    (h : _calculate_sde_parameters exp beta0 beta1 beta3 beta4 v_mp i_mp v_oc =
      .ok (IL, I0, Rsh, Rs, nNsVth)) : 0 < I0 := by
  rw [_calculate_sde_parameters] at h
  split at h
  · exact absurd h (by simp)
  · simp only [np_isnan, Bool.false_eq_true, false_or] at h
    split at h
    · exact absurd h (by simp)
    · split at h
      · exact absurd h (by simp)
      · split at h
        · exact absurd h (by simp)
        · rename_i hnot
          push_neg at hnot
          split at h
          · rename_i hboth
            simp only [Except.ok.injEq, Prod.mk.injEq] at h
            obtain ⟨_, h2, _⟩ := h
            rw [← h2]
            have := add_pos hboth.1 hboth.2
            linarith
          · split at h
            · rename_i hvmp
              simp only [Except.ok.injEq, Prod.mk.injEq] at h
              obtain ⟨_, h2, _⟩ := h
              rw [← h2]
              exact hvmp
            · rename_i hnboth hvmp
              simp only [Except.ok.injEq, Prod.mk.injEq] at h
              obtain ⟨_, h2, _⟩ := h
              rw [← h2]
              exact lt_of_not_le (fun hle => absurd (hnot (not_lt.mp hvmp)) (not_lt.mpr hle))

/-- C4: whenever `fit_sde_sandia` returns successfully, the saturation
current it returns is strictly positive. -/
theorem c4_saturation_current_positive (exp log : ℚ → ℚ)
    (lapack : List (ℚ × ℚ × ℚ) → List ℚ → ℚ × ℚ × ℚ)
    (voltage current : List ℚ) (v_oc_in i_sc_in : Option ℚ)
    (v_mp_i_mp : Option (ℚ × ℚ)) (vlim ilim : ℚ)
    (IL I0 Rsh Rs nNsVth : ℚ)
    (h : fit_sde_sandia exp log lapack voltage current v_oc_in i_sc_in
      v_mp_i_mp vlim ilim = .ok (IL, I0, Rsh, Rs, nNsVth)) : 0 < I0 := by
  rw [fit_sde_sandia.eq_def] at h
  split at h
  · exact absurd h (by simp)
  · split at h
    · exact absurd h (by simp)
    · split at h
      · exact absurd h (by simp)
      · split at h
        · exact absurd h (by simp)
        · split at h
          · exact absurd h (by simp)
          · exact calculate_sde_parameters_I0_pos _ _ _ _ _ _ _ _ _ _ _ _ _ h

deriving instance DecidableEq for Except

/-- Constant-one stand-in for `np.exp` used to instantiate black-box
function parameters in concrete evaluations. -/
def expOne : ℚ → ℚ := fun _ => 1

/-- Constant-zero stand-in for `np.log` in concrete evaluations. -/
def logZero : ℚ → ℚ := fun _ => 0

/-- Concrete LAPACK stand-in returning coefficients `(0, 1, 1)`. -/
def lapackOne : List (ℚ × ℚ × ℚ) → List ℚ → ℚ × ℚ × ℚ := fun _ _ => (0, 1, 1)

theorem fit_sde_sandia_concrete_run :
    fit_sde_sandia expOne logZero lapackOne [0, 2, 4, 6] [6, 5, 3, 0]
      none none none (1 / 2) (1 / 10) = .ok (12, 4, 1, 1, 1) := by
  norm_num [fit_sde_sandia, _find_mp, np_argmax, listMax, max_def,
    _find_beta0_beta1, np_searchsorted, List.findIdx_cons, beta01_loop, np_polyfit1,
    _find_beta3_beta4, expRegionSelect, List.zip, List.filter, np_lstsq3,
    np_isnan, lapackOne, logZero, List.zipWith,
    _calculate_sde_parameters, _calc_I0, expOne]

theorem c4_saturation_current_positive_witness :
    fit_sde_sandia expOne logZero lapackOne [0, 2, 4, 6] [6, 5, 3, 0]
      none none none (1 / 2) (1 / 10) = .ok (12, 4, 1, 1, 1) ∧ (0 : ℚ) < 4 :=
  ⟨fit_sde_sandia_concrete_run, c4_saturation_current_positive expOne logZero
    lapackOne [0, 2, 4, 6] [6, 5, 3, 0] none none none (1 / 2) (1 / 10)
    12 4 1 1 1 fit_sde_sandia_concrete_run⟩

/-- C8: for every non-empty IV curve, `_find_mp` returns the (voltage,
current) pair at the sample index maximizing the product voltage·current
over all samples, with ties resolved by first occurrence. -/
theorem c8_find_mp_is_argmax (v i : List ℚ) (hne : v ≠ [])
    (hlen : i.length = v.length) :
    ∃ j, j < v.length ∧ _find_mp v i = some (v.getD j 0, i.getD j 0) ∧
      (∀ k, k < v.length →
        v.getD k 0 * i.getD k 0 ≤ v.getD j 0 * i.getD j 0) ∧
      ∀ k, k < j → v.getD k 0 * i.getD k 0 < v.getD j 0 * i.getD j 0 := by
  have hplen : (List.zipWith (· * ·) v i).length = v.length := by
    rw [List.length_zipWith, hlen, Nat.min_self]
  have hvpos : 0 < v.length := List.length_pos.mpr hne
  have hpne : List.zipWith (· * ·) v i ≠ [] := by
    intro hnil
    rw [hnil] at hplen
    simp at hplen
    omega
  refine ⟨np_argmax (List.zipWith (· * ·) v i), ?_, ?_, ?_, ?_⟩
  · have := np_argmax_lt_length _ hpne
    omega
  · rw [_find_mp]
    rw [if_neg (by simpa [List.isEmpty_iff] using hpne)]
  · intro k hk
    have h1 := listMax_ge (List.zipWith (· * ·) v i) k (by omega)
    have h2 := getD_np_argmax _ hpne
    have hj := np_argmax_lt_length _ hpne
    rw [getD_zipWith_mul v i k hk (by omega)] at h1
    rw [getD_zipWith_mul v i _ (by omega) (by omega)] at h2
    rw [h2]
    exact h1
  · intro k hk
    have h1 := np_argmax_first (List.zipWith (· * ·) v i) k hk
    have hj := np_argmax_lt_length _ hpne
    rw [getD_zipWith_mul v i k (by omega) (by omega),
      getD_zipWith_mul v i _ (by omega) (by omega)] at h1
    exact h1

theorem c8_find_mp_is_argmax_witness :
    ([(0 : ℚ), 2, 4, 6] ≠ []) ∧
    (∃ j, j < [(0 : ℚ), 2, 4, 6].length ∧
      _find_mp [(0 : ℚ), 2, 4, 6] [6, 5, 3, 0] =
        some ([(0 : ℚ), 2, 4, 6].getD j 0, [(6 : ℚ), 5, 3, 0].getD j 0) ∧
      (∀ k, k < [(0 : ℚ), 2, 4, 6].length →
        [(0 : ℚ), 2, 4, 6].getD k 0 * [(6 : ℚ), 5, 3, 0].getD k 0 ≤
          [(0 : ℚ), 2, 4, 6].getD j 0 * [(6 : ℚ), 5, 3, 0].getD j 0) ∧
      ∀ k, k < j →
        [(0 : ℚ), 2, 4, 6].getD k 0 * [(6 : ℚ), 5, 3, 0].getD k 0 <
          [(0 : ℚ), 2, 4, 6].getD j 0 * [(6 : ℚ), 5, 3, 0].getD j 0) :=
  ⟨by simp, c8_find_mp_is_argmax [0, 2, 4, 6] [6, 5, 3, 0] (by simp) (by simp)⟩

/-- C6: the linear-region search starts at the smallest index whose
voltage is at least `vlim·v_oc` (all earlier voltages are below the
threshold, the start index's voltage reaches it); on success there is an
accepting window end `j` in range whose degree-1 least-squares fit has
negative slope, `beta0` is its intercept and `beta1` its negated slope,
and every earlier examined window fitted with non-negative slope (no
qualifying window skipped, none examined past the accepted one); if every
window in range fits with non-negative slope the search raises the
`RuntimeError` naming both coefficients as NaN. -/
theorem c6_linear_region_search (v i : List ℚ) (vlim v_oc : ℚ) :
    (∀ k, k < np_searchsorted v (vlim * v_oc) → v.getD k 0 < vlim * v_oc) ∧
    (np_searchsorted v (vlim * v_oc) < v.length →
      vlim * v_oc ≤ v.getD (np_searchsorted v (vlim * v_oc)) 0) ∧
    (∀ b0 b1, _find_beta0_beta1 v i vlim v_oc = .ok (b0, b1) →
      ∃ j, np_searchsorted v (vlim * v_oc) ≤ j ∧ j < v.length ∧
        (∃ s t, np_polyfit1 (v.take j) (i.take j) = .ok (s, t) ∧ s < 0 ∧
          b0 = t ∧ b1 = -s) ∧
        ∀ m, np_searchsorted v (vlim * v_oc) ≤ m → m < j →
          ∃ s t, np_polyfit1 (v.take m) (i.take m) = .ok (s, t) ∧ 0 ≤ s) ∧
    ((∀ j, np_searchsorted v (vlim * v_oc) ≤ j → j < v.length →
        ∃ s t, np_polyfit1 (v.take j) (i.take j) = .ok (s, t) ∧ 0 ≤ s) →
      _find_beta0_beta1 v i vlim v_oc =
        .error (.runtimeError beta01FailMsg)) := by
  have hle := np_searchsorted_le_length v (vlim * v_oc)
  refine ⟨fun k hk => np_searchsorted_lt v (vlim * v_oc) k hk,
    np_searchsorted_ge v (vlim * v_oc), ?_, ?_⟩
  · intro b0 b1 h
    rw [_find_beta0_beta1] at h
    obtain ⟨j, hj1, hj2, hacc, hmono⟩ := beta01_loop_ok v i _ _ b0 b1 h
    exact ⟨j, hj1, by omega, hacc, hmono⟩
  · intro H
    rw [_find_beta0_beta1]
    exact beta01_loop_fail v i _ _ (fun j h1 h2 => H j h1 (by omega))

/-- C10: every window fitted by the linear-region search is the strict
prefix of the curve ending just before the loop index, for loop indices
from the start index to `v.length - 1`: the window's length equals its
index (so the sample at that index is excluded from its own window) and
the curve's last sample, at position `v.length - 1`, is absent from every
fitted window; on success the accepted index is the last examined window
and its fit has negative slope, and on exhaustion failure every index of
the range was examined. -/
theorem c10_windows_are_strict_prefixes (v i : List ℚ) (vlim v_oc : ℚ) :
    (∀ idx ∈ fittedWindows v i vlim v_oc,
      np_searchsorted v (vlim * v_oc) ≤ idx ∧ idx < v.length ∧
      (v.take idx).length = idx ∧ (i.take idx).length ≤ idx ∧
      (v.take idx).get? (v.length - 1) = none) ∧
    (∀ p, _find_beta0_beta1 v i vlim v_oc = .ok p →
      ∃ j s t, (fittedWindows v i vlim v_oc).getLast? = some j ∧
        np_polyfit1 (v.take j) (i.take j) = .ok (s, t) ∧ s < 0 ∧
        p = (t, -s)) ∧
    (_find_beta0_beta1 v i vlim v_oc = .error (.runtimeError beta01FailMsg) →
      ∀ j, np_searchsorted v (vlim * v_oc) ≤ j → j < v.length →
        j ∈ fittedWindows v i vlim v_oc) := by
  have hle := np_searchsorted_le_length v (vlim * v_oc)
  refine ⟨?_, ?_, ?_⟩
  · intro idx hidx
    obtain ⟨h1, h2⟩ := beta01_windows_mem v i _ _ idx hidx
    have hlt : idx < v.length := by omega
    refine ⟨h1, hlt, ?_, ?_, ?_⟩
    · rw [List.length_take]
      omega
    · rw [List.length_take]
      omega
    · rw [List.get?_eq_none, List.length_take]
      omega
  · intro p h
    rw [_find_beta0_beta1] at h
    obtain ⟨b0, b1⟩ := p
    obtain ⟨j, s, t, hlast, hfit, hneg, hb0, hb1⟩ :=
      beta01_windows_last_of_ok v i _ _ b0 b1 h
    exact ⟨j, s, t, hlast, hfit, hneg, by rw [hb0, hb1]⟩
  · intro h j h1 h2
    rw [_find_beta0_beta1] at h
    exact beta01_windows_cover_of_fail v i _ _ h j h1 (by omega)

/-- C9: there exists an IV curve satisfying the stated curve invariants
(length ≥ 2, voltage non-decreasing from 0 to `v_oc` inclusive, current
non-increasing from `i_sc` to 0 inclusive) and a `vlim ∈ (0,1)` with
`vlim·v_oc ≤ voltage[0]`, for which SDE extraction propagates the
`TypeError` of the degree-1 fit applied to an empty sample window (the
binary search returns index 0) rather than an `ExtractionFailed`
`RuntimeError`. -/
theorem c9_low_level_failure_exists :
    ∃ (v i : List ℚ) (vlim : ℚ),
      2 ≤ v.length ∧ i.length = v.length ∧
      List.Chain' (· ≤ ·) v ∧ v.headD 1 = 0 ∧
      List.Chain' (· ≥ ·) i ∧ i.getLastD 1 = 0 ∧
      0 < vlim ∧ vlim < 1 ∧ vlim * v.getLastD 1 ≤ v.headD 1 ∧
      ∀ exp log lapack,
        ∃ e, fit_sde_sandia exp log lapack v i none none none vlim (1 / 10) =
            .error e ∧ ∀ msg, e ≠ .runtimeError msg := by
  refine ⟨[0, 0], [1, 0], 1 / 2, by simp, by simp,
    by norm_num [List.chain'_cons], by simp,
    by norm_num [List.chain'_cons], by simp, by norm_num, by norm_num,
    by norm_num, ?_⟩
  intro exp log lapack
  refine ⟨.typeError "expected non-empty vector for x", ?_, by simp⟩
  norm_num [fit_sde_sandia, _find_mp, np_argmax, listMax, max_def,
    _find_beta0_beta1, np_searchsorted, List.findIdx_cons, beta01_loop,
    np_polyfit1, List.zipWith]

/-- C1 (refuting evaluation): an IV curve on which the linear fit succeeds
(`beta0 = 5`, `beta1 = 1`) while the exponential-region selection mask
`{i : beta0 - beta1*V[i] - I[i] > ilim*i_sc}` is empty.  NumPy's lstsq
returns zero coefficients for the empty system, so `beta3 = beta4 = 0`
pass the NaN guard, `_find_beta3_beta4` returns successfully, and
`1.0/beta3` in `_calculate_sde_parameters` raises `ZeroDivisionError` —
SDE extraction propagates a low-level numeric exception instead of the
`RuntimeError` (`ExtractionFailed`) promised by the claim and by the
docstring of `fit_sde_sandia`. -/
theorem c1_empty_mask_zero_division :
    ∀ exp log lapack,
      _find_beta0_beta1 [0, 1, 2, 3, 4, 5] [5, 4, 3, 2, 1, 0] (2 / 5) 5 =
        .ok (5, 1) ∧
      expRegionSelect [0, 1, 2, 3, 4, 5] [5, 4, 3, 2, 1, 0] 5 1 (1 / 10) 5 =
        [] ∧
      _find_beta3_beta4 log lapack [0, 1, 2, 3, 4, 5] [5, 4, 3, 2, 1, 0]
        5 1 (1 / 10) 5 = .ok (0, 0) ∧
      fit_sde_sandia exp log lapack [0, 1, 2, 3, 4, 5] [5, 4, 3, 2, 1, 0]
        none none none (2 / 5) (1 / 10) = .error .zeroDivisionError ∧
      ∀ msg, PyError.zeroDivisionError ≠ PyError.runtimeError msg := by
  intro exp log lapack
  refine ⟨?_, ?_, ?_, ?_, by simp⟩
  · norm_num [_find_beta0_beta1, np_searchsorted, List.findIdx_cons,
      beta01_loop, np_polyfit1, List.zipWith]
  · norm_num [expRegionSelect, List.zipWith, List.zip, List.filter]
  · norm_num [_find_beta3_beta4, expRegionSelect, List.zipWith, List.zip,
      List.filter, np_lstsq3, np_isnan]
  · norm_num [fit_sde_sandia, _find_mp, np_argmax, listMax, max_def,
      _find_beta0_beta1, np_searchsorted, List.findIdx_cons, beta01_loop,
      np_polyfit1, _find_beta3_beta4, expRegionSelect, List.zip, List.filter,
      np_lstsq3, np_isnan, List.zipWith, _calculate_sde_parameters, _calc_I0]

theorem calculate_sde_concrete_run :
    _calculate_sde_parameters expOne 6 (1 / 2) 1 1 4 3 6 =
      .ok (12, 4, 1, 1, 1) := by
  norm_num [_calculate_sde_parameters, _calc_I0, np_isnan, expOne]

theorem c2_sde_parameter_formulas_witness :
    ((1 : ℚ) ≠ 0) ∧ (1 - (1 : ℚ) / 1 * (1 / 2) ≠ 0) ∧
    (_calculate_sde_parameters expOne 6 (1 / 2) 1 1 4 3 6 =
      .ok (12, 4, 1, 1, 1)) ∧
    ((1 : ℚ) = 1 / 1 ∧ (1 : ℚ) = 1 / 1 ∧
      (1 : ℚ) = 1 / (1 / 2 / (1 - 1 / 1 * (1 / 2))) ∧
      (12 : ℚ) = (1 + 1 / 2 / (1 - 1 / 1 * (1 / 2)) * (1 / 1)) * 6) :=
  ⟨by norm_num, by norm_num, calculate_sde_concrete_run,
    c2_sde_parameter_formulas expOne 6 (1 / 2) 1 1 4 3 6 12 4 1 1 1
      (by norm_num) (by norm_num) calculate_sde_concrete_run⟩

theorem calculate_sde_concrete_run2 :
    _calculate_sde_parameters expOne 2 1 1 0 0 1 0 = .ok (2, 3 / 2, 1, 0, 1) := by
  norm_num [_calculate_sde_parameters, _calc_I0, np_isnan, expOne]

theorem c3_I0_reconciliation_witness :
    ((1 : ℚ) ≠ 0) ∧ ((1 : ℚ) = 1 / 1) ∧ ((0 : ℚ) = 0 / 1) ∧
    (1 - (0 : ℚ) * 1 ≠ 0) ∧ ((1 : ℚ) = 1 / (1 - 0 * 1)) ∧ ((1 : ℚ) ≠ 0) ∧
    ((1 : ℚ) = 1 / 1) ∧ ((2 : ℚ) = (1 + 1 * 0) * 2) ∧
    (_calc_I0 expOne 2 1 0 1 0 1 =
      (2 - 1 - 1 * 0 - 1 * 0 * 1) / expOne ((0 + 0 * 1) / 1) ∧
    _calc_I0 expOne 2 0 0 1 0 1 =
      (2 - 0 - 1 * 0 - 1 * 0 * 0) / expOne ((0 + 0 * 0) / 1) ∧
    _calculate_sde_parameters expOne 2 1 1 0 0 1 0 =
      (if 0 < _calc_I0 expOne 2 1 0 1 0 1 ∧ 0 < _calc_I0 expOne 2 0 0 1 0 1 then
        .ok (2, (_calc_I0 expOne 2 1 0 1 0 1 + _calc_I0 expOne 2 0 0 1 0 1) / 2,
          1, 0, 1)
      else if 0 < _calc_I0 expOne 2 1 0 1 0 1 then
        .ok (2, _calc_I0 expOne 2 1 0 1 0 1, 1, 0, 1)
      else if 0 < _calc_I0 expOne 2 0 0 1 0 1 then
        .ok (2, _calc_I0 expOne 2 0 0 1 0 1, 1, 0, 1)
      else .error (.runtimeError i0FailMsg))) :=
  ⟨by norm_num, by norm_num, by norm_num, by norm_num, by norm_num,
    by norm_num, by norm_num, by norm_num,
    c3_I0_reconciliation expOne 2 1 1 0 0 1 0 1 0 1 1 2
      (by norm_num) (by norm_num) (by norm_num) (by norm_num) (by norm_num)
      (by norm_num) (by norm_num) (by norm_num)⟩

/-- Constant root-solver stand-in reporting failure, for concrete
evaluations of `fit_sdm_desoto`. -/
def rootNone : ((ℚ × ℚ × ℚ × ℚ × ℚ) → List ℚ) → (ℚ × ℚ × ℚ × ℚ × ℚ) →
    Option (ℚ × ℚ × ℚ × ℚ × ℚ) := fun _ _ => none

theorem c7_technology_lookup_witness :
    (py_lower "MonoSi" ∈ siliconCelltypes) ∧
    (py_lower "cigs" ∈ thinFilmCelltypes) ∧
    (py_lower "foobar" ∉ siliconCelltypes) ∧
    (py_lower "foobar" ∉ thinFilmCelltypes) ∧
    (desoto_technology "MonoSi" = .ok (-2677 / 10 ^ 7, 1796 / 10 ^ 22) ∧
    fit_sdm_desoto rootNone expOne logZero "cigs" 0 0 0 0 0 0 0 0 0 =
      .error .notImplementedError ∧
    fit_sdm_desoto rootNone expOne logZero "foobar" 0 0 0 0 0 0 0 0 0 =
      .error (.valueError "Unknown cell type.")) :=
  ⟨by decide, by decide, by decide, by decide,
    c7_technology_lookup "MonoSi" "cigs" "foobar" rootNone expOne logZero
      0 0 0 0 0 0 0 0 0 (by decide) (by decide) (by decide) (by decide)⟩
